import Mathlib

/-!
# Verification of optiland coating and pupil-distribution spec claims

Shallow embedding of `optiland/coatings.py` and of the pupil sampling
distributions of the `optiland.distribution` module (the latter is not in
`src/`, only its test suite is, so those definitions are modelled from the
spec and pinned to the concrete fixtures of `src/tests/test_distribution.py`).

Numeric arrays are embedded as lists of rationals (exact table values) or as
vectors `Fin n → ℝ` (per-ray quantities); azimuths are kept in polar form so
that the point generators stay executable, with a separate real-valued
coordinate interpretation `x = r·cos θ`, `y = r·sin θ`.
-/

namespace Optiland

/-! ## Gaussian quadrature tables (distribution module) -/

/-- Modelled from the spec: the per-`num_rings` ring-radius lookup table of
`GaussianQuadrature.generate_points` (the `optiland.distribution` module is
missing from `src/`); the exact decimal values are pinned by the fixtures of
`test_gaussian_quad_distribution`. Ring counts 1–6 only; anything else has
no table entry. -/
def gqRadiiTable (numRings : Int) : Option (List ℚ) :=
  if numRings = 1 then some [0.70711]
  else if numRings = 2 then some [0.4597, 0.88807]
  else if numRings = 3 then some [0.33571, 0.70711, 0.94196]
  else if numRings = 4 then some [0.2635, 0.57446, 0.81853, 0.96466]
  else if numRings = 5 then some [0.21659, 0.48038, 0.70711, 0.87706, 0.97626]
  else if numRings = 6 then some [0.18375, 0.41158, 0.617, 0.78696, 0.91138, 0.983]
  else none

/-- Modelled from the spec: the per-`num_rings` base radial-weight lookup table
of `GaussianQuadrature.get_weights` (the `optiland.distribution` module is
missing from `src/`); the exact decimal values are pinned by the fixtures of
`test_gaussian_quad_weights`, which divide the returned weights by 6
(symmetric) resp. 2 (asymmetric) before comparing against this table. -/
def gqWeightsTable (numRings : Int) : Option (List ℚ) :=
  if numRings = 1 then some [0.5]
  else if numRings = 2 then some [0.25, 0.25]
  else if numRings = 3 then some [0.13889, 0.22222, 0.13889]
  else if numRings = 4 then some [0.08696, 0.16304, 0.16304, 0.08696]
  else if numRings = 5 then some [0.059231, 0.11966, 0.14222, 0.11966, 0.059231]
  else if numRings = 6 then some [0.04283, 0.09019, 0.11698, 0.11698, 0.09019, 0.04283]
  else none

/-- A Gaussian-quadrature sample point in polar form: radius `r` (a table
value) and azimuth `θ = t·π/3` with `t ∈ {-1, 0, 1}`. -/
structure GQPoint where
  r : ℚ
  t : Int
deriving DecidableEq

/-- Real x-coordinate of a Gaussian-quadrature point: `x = r · cos (t·π/3)`. -/
noncomputable def GQPoint.x (p : GQPoint) : ℝ :=
  (p.r : ℝ) * Real.cos (p.t * Real.pi / 3)

/-- Real y-coordinate of a Gaussian-quadrature point: `y = r · sin (t·π/3)`. -/
noncomputable def GQPoint.y (p : GQPoint) : ℝ :=
  (p.r : ℝ) * Real.sin (p.t * Real.pi / 3)

/-- Modelled from the spec: `GaussianQuadrature.generate_points` (the
`optiland.distribution` module is missing from `src/`). Validates the ring
count against the 1–6 table first (raising `ValueError` otherwise, before any
array is built); in symmetric mode each ring contributes one point at azimuth
0, in asymmetric mode three points at azimuths `-π/3, 0, π/3` in increasing
order, ring by ring in table order. -/
def gqGeneratePoints (isSymmetric : Bool) (numRings : Int) :
    Except String (List GQPoint) :=
  match gqRadiiTable numRings with
  | none => Except.error "invalid num_rings"
  | some radii =>
    if isSymmetric then
      Except.ok (radii.map fun r => ⟨r, 0⟩)
    else
      Except.ok (radii.flatMap fun r => [⟨r, -1⟩, ⟨r, 0⟩, ⟨r, 1⟩])

/-- Modelled from the spec: `GaussianQuadrature.get_weights` (the
`optiland.distribution` module is missing from `src/`). Validates the ring
count against the 1–6 table first (raising `ValueError` otherwise); returns
one weight per ring in table order, the base table value scaled by 6 in
symmetric mode and by 2 in asymmetric mode, as pinned by
`test_gaussian_quad_weights` (`scale = [6.0, 2.0]`). -/
def gqGetWeights (isSymmetric : Bool) (numRings : Int) :
    Except String (List ℚ) :=
  match gqWeightsTable numRings with
  | none => Except.error "invalid num_rings"
  | some ws =>
    Except.ok (ws.map fun w => (if isSymmetric then (6 : ℚ) else 2) * w)


/-! ## Gaussian quadrature claim properties -/

/-- The generate-points behavior of `GaussianQuadrature` at ring count `k`:
the table radii exist, symmetric mode yields one point per ring at azimuth 0
(so `x` = ring radius, `y` = 0) in ring order, asymmetric mode yields three
points per ring at azimuth indices `-1, 0, 1` (`θ = -π/3, 0, π/3`) in
increasing order, ring by ring, and every point's real coordinates are
`x = r·cos θ`, `y = r·sin θ`. -/
def gqPointsSpec (k : Int) : Prop :=
  ∃ radii : List ℚ,
    gqRadiiTable k = some radii ∧
    (k = 1 → radii = [0.70711]) ∧
    gqGeneratePoints true k = Except.ok (radii.map fun r => ⟨r, 0⟩) ∧
    gqGeneratePoints false k =
      Except.ok (radii.flatMap fun r => [⟨r, -1⟩, ⟨r, 0⟩, ⟨r, 1⟩]) ∧
    (∀ r : ℚ, (GQPoint.mk r 0).x = (r : ℝ) ∧ (GQPoint.mk r 0).y = 0) ∧
    (∀ p : GQPoint, p.x = (p.r : ℝ) * Real.cos (p.t * Real.pi / 3) ∧
      p.y = (p.r : ℝ) * Real.sin (p.t * Real.pi / 3))

/-- A point at azimuth index 0 lies on the positive x-axis: `x = r`, `y = 0`. -/
theorem gqPoint_azimuth_zero (r : ℚ) :
    (GQPoint.mk r 0).x = (r : ℝ) ∧ (GQPoint.mk r 0).y = 0 := by
  constructor <;> simp [GQPoint.x, GQPoint.y]

/-- The amended weight behavior of `GaussianQuadrature.get_weights` at ring
count `k`: exactly one weight per ring (so as many weights as rings, not
three per ring), in the same ring order as the points of `generate_points`;
symmetric mode returns 6 × the base table value, asymmetric mode 2 × it. -/
def gqWeightsAmended (k : Int) : Prop :=
  ∃ base radii : List ℚ,
    gqWeightsTable k = some base ∧
    gqRadiiTable k = some radii ∧
    base.length = radii.length ∧
    gqGetWeights true k = Except.ok (base.map fun w => 6 * w) ∧
    gqGetWeights false k = Except.ok (base.map fun w => 2 * w) ∧
    gqGeneratePoints true k = Except.ok (radii.map fun r => ⟨r, 0⟩) ∧
    gqGeneratePoints false k =
      Except.ok (radii.flatMap fun r => [⟨r, -1⟩, ⟨r, 0⟩, ⟨r, 1⟩])

/-- The weight-count/ratio behavior of `GaussianQuadrature.get_weights` at
ring count `k`: both modes return exactly `k` weights, the symmetric weights
are element-wise 3 × the asymmetric ones, and they are respectively 6 × and
2 × the base table values. -/
def gqWeightsRatioSpec (k : Int) : Prop :=
  ∃ ws2 ws6 : List ℚ,
    gqGetWeights false k = Except.ok ws2 ∧
    gqGetWeights true k = Except.ok ws6 ∧
    ws2.length = k.toNat ∧
    ws6.length = k.toNat ∧
    ws6 = ws2.map (fun w => 3 * w) ∧
    ∃ base : List ℚ, gqWeightsTable k = some base ∧
      ws6 = base.map (fun w => 6 * w) ∧ ws2 = base.map fun w => 2 * w

/-- The error/success behavior required of an invalid ring count: both
`generate_points` and `get_weights` return an error. -/
def gqInvalidSpec (s : Bool) (n : Int) : Prop :=
  (∃ e, gqGeneratePoints s n = Except.error e) ∧
  ∃ e, gqGetWeights s n = Except.error e

/-- The success behavior required of a valid ring count: both
`generate_points` and `get_weights` return a result. -/
def gqValidSpec (s : Bool) (n : Int) : Prop :=
  (∃ pts, gqGeneratePoints s n = Except.ok pts) ∧
  ∃ ws, gqGetWeights s n = Except.ok ws

/-- C2: for every num_rings k in 1..6, generate_points uses the k table ring
radii (0.70711 for k=1), one point per ring at (x=radius, y=0) in ring order
when symmetric, and three points per ring at θ = -π/3, 0, π/3 (increasing,
x = r·cos θ, y = r·sin θ) ring-by-ring when asymmetric. -/
theorem gq_generate_points_spec (k : Int) (h1 : 1 ≤ k) (h6 : k ≤ 6) :
    gqPointsSpec k := by
  interval_cases k
  · exact ⟨_, rfl, fun _ => rfl, rfl, rfl, gqPoint_azimuth_zero, fun p => ⟨rfl, rfl⟩⟩
  all_goals
    exact ⟨_, rfl, fun h => absurd h (by decide), rfl, rfl,
      gqPoint_azimuth_zero, fun p => ⟨rfl, rfl⟩⟩

/-- Witness for C2 at k = 1. -/
theorem gq_generate_points_spec_witness :
    (1 : Int) ≤ 1 ∧ (1 : Int) ≤ 6 ∧ gqPointsSpec 1 :=
  ⟨by decide, by decide, gq_generate_points_spec 1 (by decide) (by decide)⟩

/-- Counterexample to C1 as stated: at num_rings = 1 in asymmetric mode,
generate_points yields 3 points but get_weights yields a single weight (not
3 = 3·k weights), and in symmetric mode the returned weight is 6 × the base
table weight 0.5, not the table weight itself. -/
theorem gq_weights_claim_cex :
    ((gqGetWeights false 1).toOption.map List.length = some 1 ∧
      (gqGeneratePoints false 1).toOption.map List.length = some 3 ∧
      (1 : Nat) ≠ 3) ∧
    gqWeightsTable 1 = some [0.5] ∧
    gqGetWeights true 1 = Except.ok [(6 : ℚ) * 0.5] ∧
    (6 : ℚ) * 0.5 ≠ 0.5 :=
  ⟨by decide, rfl, rfl, by norm_num⟩

/-- C1 (amended): for every num_rings k in 1..6, get_weights returns exactly
one weight per ring — 6 × the base table value (symmetric) or 2 × it
(asymmetric) — in the same ring order as the points of generate_points; in
asymmetric mode the list is not expanded to 3k entries. -/
theorem gq_get_weights_amended (k : Int) (h1 : 1 ≤ k) (h6 : k ≤ 6) :
    gqWeightsAmended k := by
  interval_cases k <;>
    exact ⟨_, _, rfl, rfl, rfl, rfl, rfl, rfl, rfl⟩

/-- Witness for amended C1 at k = 3. -/
theorem gq_get_weights_amended_witness :
    (1 : Int) ≤ 3 ∧ (3 : Int) ≤ 6 ∧ gqWeightsAmended 3 :=
  ⟨by decide, by decide, gq_get_weights_amended 3 (by decide) (by decide)⟩

/-- C10: for every num_rings k in 1..6, get_weights returns exactly k weights
in both modes, and each symmetric weight is exactly 3 × the asymmetric weight
of the same ring (6 × base table vs 2 × base table). -/
theorem gq_weights_ratio (k : Int) (h1 : 1 ≤ k) (h6 : k ≤ 6) :
    gqWeightsRatioSpec k := by
  have key : ∀ base : List ℚ,
      base.map (fun w => 6 * w) = (base.map fun w => 2 * w).map fun w => 3 * w := by
    intro base
    rw [List.map_map]
    refine List.map_congr_left fun w _ => ?_
    show 6 * w = 3 * (2 * w)
    ring
  interval_cases k <;>
    exact ⟨_, _, rfl, rfl, by decide, by decide, key _, _, rfl, rfl, rfl⟩

/-- Witness for C10 at k = 2. -/
theorem gq_weights_ratio_witness :
    (1 : Int) ≤ 2 ∧ (2 : Int) ≤ 6 ∧ gqWeightsRatioSpec 2 :=
  ⟨by decide, by decide, gq_weights_ratio 2 (by decide) (by decide)⟩

/-- C3: for every integer num_rings outside 1..6 (including 0 and negatives),
both generate_points and get_weights of GaussianQuadrature return an error,
with no default or partial result; for num_rings in 1..6 neither errors. -/
theorem gq_validation (s : Bool) (n : Int) :
    ((n < 1 ∨ 6 < n) → gqInvalidSpec s n) ∧
    (1 ≤ n → n ≤ 6 → gqValidSpec s n) := by
  constructor
  · intro h
    have hr : gqRadiiTable n = none := by
      unfold gqRadiiTable
      rw [if_neg (by omega), if_neg (by omega), if_neg (by omega),
        if_neg (by omega), if_neg (by omega), if_neg (by omega)]
    have hw : gqWeightsTable n = none := by
      unfold gqWeightsTable
      rw [if_neg (by omega), if_neg (by omega), if_neg (by omega),
        if_neg (by omega), if_neg (by omega), if_neg (by omega)]
    exact ⟨⟨_, by unfold gqGeneratePoints; rw [hr]⟩,
      ⟨_, by unfold gqGetWeights; rw [hw]⟩⟩
  · intro h1 h6
    cases s <;> interval_cases n <;> exact ⟨⟨_, rfl⟩, ⟨_, rfl⟩⟩

/-- Witness for C3 at n = 0 (invalid) and n = 3 (valid). -/
theorem gq_validation_witness :
    ((0 : Int) < 1 ∨ 6 < (0 : Int)) ∧ gqInvalidSpec true 0 ∧
    ((1 : Int) ≤ 3 ∧ (3 : Int) ≤ 6) ∧ gqValidSpec false 3 :=
  ⟨by decide, (gq_validation true 0).1 (by decide),
    ⟨by decide, by decide⟩, (gq_validation false 3).2 (by decide) (by decide)⟩


/-! ## Linspace, Cross and Hexapolar distributions -/

/-- Modelled from the spec: the numpy-style `linspace` primitive of the array
backend used by the `optiland.distribution` module (missing from `src/`),
over ℚ: `n` evenly spaced samples from `a` to `b` inclusive; for `n = 1`
numpy returns just `[a]`. -/
def linspace (a b : ℚ) (n : Nat) : List ℚ :=
  (List.range n).map fun idx : Nat => a + (idx : ℚ) * (b - a) / ((n : ℚ) - 1)

/-- The length of a linspace is its sample count. -/
theorem linspace_length (a b : ℚ) (n : Nat) : (linspace a b n).length = n := by
  simp only [linspace, List.length_map, List.length_range]

/-- Sample `i` of `linspace a b n` is `a + i·(b - a)/(n - 1)`. -/
theorem linspace_getElem (a b : ℚ) (n i : Nat) (h : i < n) :
    (linspace a b n)[i]? = some (a + (i : ℚ) * (b - a) / ((n : ℚ) - 1)) := by
  simp [linspace, List.getElem?_map, List.getElem?_range, h]

/-- A one-sample linspace is just the start value, as in numpy. -/
theorem linspace_one (a b : ℚ) : linspace a b 1 = [a] := by
  simp [linspace, List.range_succ]

/-- Modelled from the spec: `CrossDistribution.generate_points` (the
`optiland.distribution` module is missing from `src/`); mirrors the
construction of `test_cross`: the full y-axis line `(0, linspace(-1,1,N))`
followed by the x-axis line `(linspace(-1,1,N), 0)`, from which the sample at
the middle index `N / 2` is removed exactly when `N` is odd. -/
def crossPoints (numPoints : Nat) : List (ℚ × ℚ) :=
  let yline := (linspace (-1) 1 numPoints).map fun t => ((0 : ℚ), t)
  let xfull := (linspace (-1) 1 numPoints).map fun t => (t, (0 : ℚ))
  let xline :=
    if numPoints % 2 = 1 then
      xfull.take (numPoints / 2) ++ xfull.drop (numPoints / 2 + 1)
    else xfull
  yline ++ xline

/-- The Cross distribution behavior at point count `n`: a full y-axis line
followed by the x-axis line with the middle sample dropped exactly when `n`
is odd, total point count `2n - 1` (odd) or `2n` (even); for odd `n ≥ 3` the
dropped middle sample of the x-axis linspace is the origin coordinate 0. -/
def crossSpec (n : Nat) : Prop :=
  (crossPoints n).length = (if n % 2 = 1 then 2 * n - 1 else 2 * n) ∧
  crossPoints n =
    ((linspace (-1) 1 n).map fun t => ((0 : ℚ), t)) ++
      (if n % 2 = 1 then
        (((linspace (-1) 1 n).map fun t => (t, (0 : ℚ))).take (n / 2)) ++
          ((linspace (-1) 1 n).map fun t => (t, (0 : ℚ))).drop (n / 2 + 1)
      else (linspace (-1) 1 n).map fun t => (t, (0 : ℚ))) ∧
  (n % 2 = 1 → 3 ≤ n → (linspace (-1) 1 n)[n / 2]? = some 0)

/-- For odd `n ≥ 3`, the middle sample of `linspace(-1, 1, n)` is exactly 0. -/
theorem linspace_middle_eq_zero (n : Nat) (hodd : n % 2 = 1) (h3 : 3 ≤ n) :
    (linspace (-1) 1 n)[n / 2]? = some 0 := by
  have hlt : n / 2 < n := by omega
  rw [linspace_getElem _ _ _ _ hlt]
  congr 1
  have hm : (1 : ℚ) ≤ ((n / 2 : Nat) : ℚ) := by
    exact_mod_cast Nat.one_le_iff_ne_zero.mpr (by omega)
  have hcast : (n : ℚ) = 2 * ((n / 2 : Nat) : ℚ) + 1 := by
    have h : n = 2 * (n / 2) + 1 := by omega
    conv_lhs => rw [h]
    push_cast
    ring
  rw [hcast]
  have hne : ((n / 2 : Nat) : ℚ) ≠ 0 := by linarith
  field_simp
  ring

/-- C5 (amended): for every N ≥ 1, Cross is the full y-axis line followed by
the x-axis line with the middle sample of the second segment removed exactly
when N is odd, giving 2N-1 points (odd) or 2N points (even); for odd N ≥ 3
the removed middle sample is the origin. -/
theorem cross_points_spec (n : Nat) (hn : 1 ≤ n) : crossSpec n := by
  refine ⟨?_, rfl, fun hodd h3 => linspace_middle_eq_zero n hodd h3⟩
  by_cases h : n % 2 = 1 <;>
    simp [crossPoints, h, List.length_take, List.length_drop,
      List.length_append, List.length_map, linspace_length] <;>
    omega

/-- Witness for amended C5 at N = 5. -/
theorem cross_points_spec_witness : 1 ≤ 5 ∧ crossSpec 5 :=
  ⟨by decide, cross_points_spec 5 (by decide)⟩

/-- Counterexample to C5 as stated: at N = 1 (odd), the sample removed from
the second segment is the middle of `linspace(-1, 1, 1) = [-1]`, i.e. the
point `(-1, 0)` — not the origin, and not a duplicate of any sample of the
first segment: `crossPoints 1 = [(0, -1)]`. -/
theorem cross_points_cex :
    linspace (-1) 1 1 = [(-1 : ℚ)] ∧
    crossPoints 1 = [((0 : ℚ), (-1 : ℚ))] ∧
    ((-1 : ℚ), (0 : ℚ)) ∉ crossPoints 1 ∧
    (linspace (-1) 1 1)[1 / 2]? = some ((-1 : ℚ)) ∧
    (-1 : ℚ) ≠ 0 := by
  have h1 : linspace (-1) 1 1 = [(-1 : ℚ)] := linspace_one (-1) 1
  refine ⟨h1, ?_, ?_, ?_, by norm_num⟩
  · simp [crossPoints, h1]
  · simp [crossPoints, h1]
  · rw [h1]
    simp

/-- A hexapolar sample point in polar form: radius `r` and azimuth
`θ = 2π·j/n`, where `j < n` indexes the `n` equally spaced azimuths of the
ring, starting at θ = 0 and excluding the duplicate θ = 2π. -/
structure PolarPt where
  r : ℚ
  j : Nat
  n : Nat
deriving DecidableEq

/-- Real x-coordinate of a hexapolar point: `x = r · cos (2π·j/n)`. -/
noncomputable def PolarPt.x (p : PolarPt) : ℝ :=
  (p.r : ℝ) * Real.cos (2 * Real.pi * p.j / p.n)

/-- Real y-coordinate of a hexapolar point: `y = r · sin (2π·j/n)`. -/
noncomputable def PolarPt.y (p : PolarPt) : ℝ :=
  (p.r : ℝ) * Real.sin (2 * Real.pi * p.j / p.n)

/-- Modelled from the spec: ring `idx` (0-based) of `Hexapolar` with `k`
total rings (the `optiland.distribution` module is missing from `src/`):
radius `(idx+1)/k` and `6·(idx+1)` equally spaced azimuths starting at 0,
the duplicate 2π sample excluded. -/
def hexRing (k idx : Nat) : List PolarPt :=
  (List.range (6 * (idx + 1))).map fun j =>
    ⟨(idx + 1 : ℚ) / (k : ℚ), j, 6 * (idx + 1)⟩

/-- Modelled from the spec: `Hexapolar.generate_points` (the
`optiland.distribution` module is missing from `src/`): the origin first,
then the rings in increasing ring order. -/
def hexapolarPoints (k : Nat) : List PolarPt :=
  ⟨0, 0, 1⟩ :: (List.range k).flatMap (hexRing k)

/-- Each hexapolar ring `idx` contributes `6·(idx+1)` points. -/
theorem hexRing_length (k idx : Nat) :
    (hexRing k idx).length = 6 * (idx + 1) := by
  simp [hexRing]

/-- Length of a flatMap over `range k` of a ring family with `6·(i+1)` points
per ring: the hexapolar triangular count `3·k·(k+1)`. -/
theorem flatMap_range_length (g : Nat → List PolarPt)
    (hg : ∀ i, (g i).length = 6 * (i + 1)) (k : Nat) :
    ((List.range k).flatMap g).length = 3 * k * (k + 1) := by
  induction k with
  | zero => rfl
  | succ m ih =>
    rw [List.range_succ, List.flatMap_append, List.length_append, ih]
    have h : ([m].flatMap g).length = 6 * (m + 1) := by simp [hg m]
    rw [h]
    ring

/-- The Hexapolar behavior at ring count `k`: `1 + 3k(k+1)` points, origin
first, rings in order, ring `i` of radius `(i+1)/k` with `6(i+1)` azimuth
samples indexed `j = 0, …, 6(i+1)-1` (θ = 2π·j/(6(i+1))), and ring radius
`(i+1)/k` equal to entry `i+1` of `linspace(0, 1, k+1)` as in the test. -/
def hexapolarSpec (k : Nat) : Prop :=
  (hexapolarPoints k).length = 1 + 3 * k * (k + 1) ∧
  (hexapolarPoints k).head? = some ⟨0, 0, 1⟩ ∧
  hexapolarPoints k = ⟨0, 0, 1⟩ :: (List.range k).flatMap (hexRing k) ∧
  ∀ i < k,
    hexRing k i = (List.range (6 * (i + 1))).map
      (fun j => ⟨(i + 1 : ℚ) / (k : ℚ), j, 6 * (i + 1)⟩) ∧
    (hexRing k i).length = 6 * (i + 1) ∧
    (linspace 0 1 (k + 1))[i + 1]? = some ((i + 1 : ℚ) / (k : ℚ)) ∧
    ∀ p ∈ hexRing k i,
      p.r = (i + 1 : ℚ) / (k : ℚ) ∧ p.n = 6 * (i + 1) ∧ p.j < p.n

/-- Entry `i+1` of `linspace(0, 1, k+1)` is the ring radius `(i+1)/k`. -/
theorem linspace_ring_radius (k i : Nat) (hik : i < k) :
    (linspace 0 1 (k + 1))[i + 1]? = some ((i + 1 : ℚ) / (k : ℚ)) := by
  have hlt : i + 1 < k + 1 := by omega
  rw [linspace_getElem _ _ _ _ hlt]
  congr 1
  have hcast : ((k + 1 : Nat) : ℚ) - 1 = (k : ℚ) := by push_cast; ring
  rw [hcast]
  push_cast
  ring

/-- C4: for every num_rings k ≥ 1, Hexapolar produces exactly 1 + 3k(k+1)
points, origin first, then ring i (0-indexed) of radius (i+1)/k with 6(i+1)
equally spaced azimuth samples (duplicate 2π excluded), ring by ring. -/
theorem hexapolar_points_spec (k : Nat) (hk : 1 ≤ k) : hexapolarSpec k := by
  refine ⟨?_, rfl, rfl, ?_⟩
  · simp only [hexapolarPoints, List.length_cons,
      flatMap_range_length (hexRing k) (hexRing_length k)]
    omega
  · intro i hi
    refine ⟨rfl, hexRing_length k i, linspace_ring_radius k i hi, ?_⟩
    intro p hp
    simp only [hexRing, List.mem_map, List.mem_range] at hp
    obtain ⟨j, hj, rfl⟩ := hp
    exact ⟨rfl, rfl, hj⟩

/-- Witness for C4 at k = 2. -/
theorem hexapolar_points_spec_witness : 1 ≤ 2 ∧ hexapolarSpec 2 :=
  ⟨by decide, hexapolar_points_spec 2 (by decide)⟩

/-! ## Coatings (`optiland/coatings.py`) -/

/-- A ray bundle (`RealRays`, external to the core): per-ray incident
direction cosines `L0, M0, N0` and per-ray intensity `i`, embedded as vectors
over `Fin n`. Only the fields the coating code touches are modelled. -/
structure RealRays (n : Nat) where
  L0 : Fin n → ℝ
  M0 : Fin n → ℝ
  N0 : Fin n → ℝ
  i : Fin n → ℝ

/-- `SimpleCoating` state: `transmittance`, `reflectance` and the derived
`absorptance = 1 - reflectance - transmittance` set in `__init__`. -/
structure SimpleCoating where
  transmittance : ℝ
  reflectance : ℝ
  absorptance : ℝ

/-- `SimpleCoating.__init__(transmittance, reflectance=0)`. -/
def SimpleCoating.make (transmittance reflectance : ℝ) : SimpleCoating :=
  ⟨transmittance, reflectance, 1 - reflectance - transmittance⟩

/-- `SimpleCoating.reflect`: `rays.i = rays.i * self.reflectance`, the
surface-normal arguments (optional in the source, default `None`) unused. -/
def SimpleCoating.reflect {n : Nat} (c : SimpleCoating) (rays : RealRays n)
    (nx ny nz : Option (Fin n → ℝ)) : RealRays n :=
  { rays with i := fun idx => rays.i idx * c.reflectance }

/-- `SimpleCoating.transmit`: `rays.i = rays.i * self.transmittance`, the
surface-normal arguments (optional in the source, default `None`) unused. -/
def SimpleCoating.transmit {n : Nat} (c : SimpleCoating) (rays : RealRays n)
    (nx ny nz : Option (Fin n → ℝ)) : RealRays n :=
  { rays with i := fun idx => rays.i idx * c.transmittance }

/-- `BaseCoating.interact`: implemented once on the base class — if the
`reflect` flag is set, call the variant's `reflect`, else its `transmit`,
returning the resulting ray collection. -/
def BaseCoating.interact {n : Nat}
    (reflectFn transmitFn :
      RealRays n → Option (Fin n → ℝ) → Option (Fin n → ℝ) →
        Option (Fin n → ℝ) → RealRays n)
    (rays : RealRays n) (reflectFlag : Bool)
    (nx ny nz : Option (Fin n → ℝ)) : RealRays n :=
  if reflectFlag then reflectFn rays nx ny nz else transmitFn rays nx ny nz

/-- `SimpleCoating`'s inherited `interact`. -/
def SimpleCoating.interact {n : Nat} (c : SimpleCoating) (rays : RealRays n)
    (reflectFlag : Bool) (nx ny nz : Option (Fin n → ℝ)) : RealRays n :=
  BaseCoating.interact c.reflect c.transmit rays reflectFlag nx ny nz

/-- numpy `clip(x, lo, hi)`: clamp `x` into `[lo, hi]`. -/
def clip (x lo hi : ℝ) : ℝ := max lo (min x hi)

/-- `BaseCoating._compute_aoi`: per ray,
`arccos(clip(|nx·L0 + ny·M0 + nz·N0|, -1, 1))`. -/
noncomputable def computeAoi {n : Nat} (rays : RealRays n)
    (nx ny nz : Fin n → ℝ) : Fin n → ℝ :=
  fun idx =>
    Real.arccos (clip
      |nx idx * rays.L0 idx + ny idx * rays.M0 idx + nz idx * rays.N0 idx|
      (-1) 1)

/-- Clamping to `[-1, 1]` really lands in `[-1, 1]`, for every real input. -/
theorem clip_bounds (x : ℝ) : -1 ≤ clip x (-1) 1 ∧ clip x (-1) 1 ≤ 1 :=
  ⟨le_max_left _ _, max_le (by norm_num) (min_le_right _ _)⟩

/-! ## Coating serialization (`to_dict` / `from_dict`) -/

/-- A Python error raised by the coating/distribution code. -/
inductive PyErr where
  | keyError (key : String)
  | valueError (msg : String)
  | typeError (msg : String)
deriving DecidableEq

/-- A serialized coating dictionary: the `"type"` discriminator plus the
numeric fields used by `SimpleCoating` and the nested material payloads used
by `FresnelCoating` (kept opaque — the material model is outside the core). -/
structure CoatingDict where
  ctype : String
  numFields : List (String × ℝ)
  matFields : List (String × String)

/-- Python dictionary access `data[key]` over the numeric fields: a
`KeyError` when the key is absent. -/
def dictGetNum (fields : List (String × ℝ)) (key : String) : Except PyErr ℝ :=
  match fields.find? (fun kv => kv.1 = key) with
  | some kv => Except.ok kv.2
  | none => Except.error (PyErr.keyError key)

/-- Python dictionary access `data[key]` over the material fields: a
`KeyError` when the key is absent. -/
def dictGetMat (fields : List (String × String)) (key : String) :
    Except PyErr String :=
  match fields.find? (fun kv => kv.1 = key) with
  | some kv => Except.ok kv.2
  | none => Except.error (PyErr.keyError key)

/-- A reconstructed coating: the `SimpleCoating` variant, or the
`FresnelCoating` variant carrying its two (opaque) material payloads. -/
inductive Coating where
  | simple (c : SimpleCoating)
  | fresnel (material_pre material_post : String)

/-- `SimpleCoating.to_dict`: type discriminator plus transmittance and
reflectance. -/
def SimpleCoating.toDict (c : SimpleCoating) : CoatingDict :=
  ⟨"SimpleCoating",
    [("transmittance", c.transmittance), ("reflectance", c.reflectance)], []⟩

/-- `SimpleCoating.from_dict`:
`cls(data["transmittance"], data["reflectance"])`. -/
def SimpleCoating.fromDict (data : CoatingDict) : Except PyErr SimpleCoating := do
  let t ← dictGetNum data.numFields "transmittance"
  let r ← dictGetNum data.numFields "reflectance"
  return SimpleCoating.make t r

/-- `FresnelCoating.from_dict`: rebuilds the two materials from
`data["material_pre"]` and `data["material_post"]` (material reconstruction
itself is external). -/
def FresnelCoating.fromDict (data : CoatingDict) : Except PyErr Coating := do
  let pre ← dictGetMat data.matFields "material_pre"
  let post ← dictGetMat data.matFields "material_post"
  return Coating.fresnel pre post

/-- The subclass registry `BaseCoating._registry`, populated by
`__init_subclass__` in class-definition order. -/
def coatingRegistry : List String :=
  ["SimpleCoating", "BaseCoatingPolarized", "FresnelCoating"]

/-- `BaseCoating.from_dict`: reads `data["type"]`, looks the name up in the
subclass registry (`cls._registry[coating_type]` — a `KeyError` when the name
was never registered) and dispatches to that subclass's `from_dict`.
Dispatching to the abstract `BaseCoatingPolarized` would instantiate an
abstract class, a `TypeError` in Python. -/
def BaseCoating.fromDict (data : CoatingDict) : Except PyErr Coating :=
  if data.ctype = "SimpleCoating" then
    (SimpleCoating.fromDict data).map Coating.simple
  else if data.ctype = "BaseCoatingPolarized" then
    Except.error (PyErr.typeError "abstract class")
  else if data.ctype = "FresnelCoating" then
    FresnelCoating.fromDict data
  else
    Except.error (PyErr.keyError data.ctype)

/-! ## Distribution factory -/

/-- The distribution variants reachable through the factory. -/
inductive DistKind where
  | line_x
  | line_y
  | positive_line_x
  | positive_line_y
  | random
  | hexapolar
  | cross
  | uniform
deriving DecidableEq

/-- The closed set of identifier strings accepted by the factory. -/
def distributionTypes : List String :=
  ["line_x", "line_y", "positive_line_x", "positive_line_y",
   "random", "hexapolar", "cross", "uniform"]

/-- Modelled from the spec: the `create_distribution` factory of the
`optiland.distribution` module (missing from `src/`): keyed by a string
identifier from the closed set; an unknown identifier raises `ValueError`
(per `test_invalid_distribution_error`). -/
def create_distribution (s : String) : Except PyErr DistKind :=
  if s = "line_x" then Except.ok DistKind.line_x
  else if s = "line_y" then Except.ok DistKind.line_y
  else if s = "positive_line_x" then Except.ok DistKind.positive_line_x
  else if s = "positive_line_y" then Except.ok DistKind.positive_line_y
  else if s = "random" then Except.ok DistKind.random
  else if s = "hexapolar" then Except.ok DistKind.hexapolar
  else if s = "cross" then Except.ok DistKind.cross
  else if s = "uniform" then Except.ok DistKind.uniform
  else Except.error (PyErr.valueError s)

/-! ## Coating claim theorems -/

/-- C6: SimpleCoating.reflect multiplies each ray's intensity element-wise by
exactly the reflectance and transmit by exactly the transmittance, leaving
the direction cosines untouched, independent of the surface-normal arguments
(which may be omitted, i.e. any Option values give the same result);
interact dispatches to reflect when the flag is true and transmit otherwise,
returning the (functionally updated) same ray collection. -/
theorem simple_coating_spec (n : Nat) (t r : ℝ) (rays : RealRays n)
    (nx ny nz nx2 ny2 nz2 : Option (Fin n → ℝ)) :
    (((SimpleCoating.make t r).reflect rays nx ny nz).i =
      fun idx => rays.i idx * r) ∧
    (((SimpleCoating.make t r).transmit rays nx ny nz).i =
      fun idx => rays.i idx * t) ∧
    ((SimpleCoating.make t r).reflect rays nx ny nz =
      (SimpleCoating.make t r).reflect rays nx2 ny2 nz2) ∧
    ((SimpleCoating.make t r).transmit rays nx ny nz =
      (SimpleCoating.make t r).transmit rays nx2 ny2 nz2) ∧
    ((SimpleCoating.make t r).interact rays true nx ny nz =
      (SimpleCoating.make t r).reflect rays nx ny nz) ∧
    ((SimpleCoating.make t r).interact rays false nx ny nz =
      (SimpleCoating.make t r).transmit rays nx ny nz) ∧
    (((SimpleCoating.make t r).reflect rays nx ny nz).L0 = rays.L0 ∧
      ((SimpleCoating.make t r).reflect rays nx ny nz).M0 = rays.M0 ∧
      ((SimpleCoating.make t r).reflect rays nx ny nz).N0 = rays.N0) ∧
    (((SimpleCoating.make t r).transmit rays nx ny nz).L0 = rays.L0 ∧
      ((SimpleCoating.make t r).transmit rays nx ny nz).M0 = rays.M0 ∧
      ((SimpleCoating.make t r).transmit rays nx ny nz).N0 = rays.N0) :=
  ⟨rfl, rfl, rfl, rfl, rfl, rfl, ⟨rfl, rfl, rfl⟩, ⟨rfl, rfl, rfl⟩⟩

/-- C7: _compute_aoi returns arccos(clip(|nx·L0 + ny·M0 + nz·N0|, -1, 1)) per
ray, and the clipped value handed to arccos always lies in [-1, 1], whatever
real value the raw dot product takes. -/
theorem compute_aoi_spec (n : Nat) (rays : RealRays n) (nx ny nz : Fin n → ℝ)
    (idx : Fin n) :
    computeAoi rays nx ny nz idx =
      Real.arccos (clip
        |nx idx * rays.L0 idx + ny idx * rays.M0 idx + nz idx * rays.N0 idx|
        (-1) 1) ∧
    -1 ≤ clip
        |nx idx * rays.L0 idx + ny idx * rays.M0 idx + nz idx * rays.N0 idx|
        (-1) 1 ∧
    clip |nx idx * rays.L0 idx + ny idx * rays.M0 idx + nz idx * rays.N0 idx|
        (-1) 1 ≤ 1 :=
  ⟨rfl, (clip_bounds _).1, (clip_bounds _).2⟩

/-- C8: from_dict ∘ to_dict is the identity on a SimpleCoating's fields: the
reconstruction goes through the "SimpleCoating" discriminator and restores
the same transmittance and reflectance, for every input pair. -/
theorem coating_roundtrip (t r : ℝ) :
    BaseCoating.fromDict (SimpleCoating.toDict (SimpleCoating.make t r)) =
      Except.ok (Coating.simple (SimpleCoating.make t r)) ∧
    (SimpleCoating.make t r).transmittance = t ∧
    (SimpleCoating.make t r).reflectance = r :=
  ⟨rfl, rfl, rfl⟩

/-- C9: an unregistered "type" discriminator makes BaseCoating.from_dict
raise a KeyError (never a silent default), and a distribution identifier
outside the closed eight-string set makes create_distribution raise a
ValueError. -/
theorem unknown_discriminator_errors (data : CoatingDict) (s : String)
    (hd : data.ctype ∉ coatingRegistry) (hs : s ∉ distributionTypes) :
    BaseCoating.fromDict data = Except.error (PyErr.keyError data.ctype) ∧
    create_distribution s = Except.error (PyErr.valueError s) := by
  simp only [coatingRegistry, List.mem_cons, List.not_mem_nil, or_false,
    not_or] at hd
  simp only [distributionTypes, List.mem_cons, List.not_mem_nil, or_false,
    not_or] at hs
  constructor
  · unfold BaseCoating.fromDict
    rw [if_neg hd.1, if_neg hd.2.1, if_neg hd.2.2]
  · unfold create_distribution
    rw [if_neg hs.1, if_neg hs.2.1, if_neg hs.2.2.1, if_neg hs.2.2.2.1,
      if_neg hs.2.2.2.2.1, if_neg hs.2.2.2.2.2.1, if_neg hs.2.2.2.2.2.2.1,
      if_neg hs.2.2.2.2.2.2.2]

/-- Witness for C9 at an unregistered coating type and an invalid
distribution identifier. -/
theorem unknown_discriminator_errors_witness :
    (CoatingDict.mk "Unknown" [] []).ctype ∉ coatingRegistry ∧
    "invalid" ∉ distributionTypes ∧
    (BaseCoating.fromDict ⟨"Unknown", [], []⟩ =
        Except.error (PyErr.keyError "Unknown") ∧
      create_distribution "invalid" =
        Except.error (PyErr.valueError "invalid")) :=
  ⟨by decide, by decide,
    unknown_discriminator_errors ⟨"Unknown", [], []⟩ "invalid"
      (by decide) (by decide)⟩

end Optiland
